import Mathlib

/-!
Shallow embedding of `src/AnalisadorAcoesEstatais/regressao_linear.py`
(class `RegressaoLinearManual`): manual univariate linear regression by
batch gradient descent, with feature normalization, a convergence stopping
rule, de-normalization of coefficients, and goodness-of-fit metrics.

Modelling choices:
* numbers are rationals (`ℚ`); the Python code computes with floats, and
  every claim here is about branch structure, state updates and exact
  algebraic formulas, none about rounding;
* 1-D numpy arrays are `List ℚ`; elementwise binary operations follow
  numpy's 1-D broadcasting rule (`broadcastOp`): equal lengths zip, a
  length-1 operand is stretched, anything else raises (ValueError on
  shapes, here `Erro.shape`);
* mutation of `self` is explicit state passing: `treinar` returns the
  result of the call (`Except Erro Coeficientes`) together with the
  post-call state of the object — the state component is meaningful even
  when an exception escapes, exactly as in Python;
* the two `np.random.randn()` draws made by `treinar` are explicit
  arguments `i0 s0`, so theorems quantify over every possible run;
* `np.std` takes a square root; `ratSqrt` is its model, exact at every
  perfect-square rational (all concrete instances evaluated below) and
  satisfying the only properties the code relies on: `ratSqrt 0 = 0` and
  `0 < ratSqrt q` for `0 < q`.
-/

/-- Exceptions the Python code can raise in the modelled paths:
`shape` is numpy's broadcast ValueError on incompatible 1-D shapes,
`zeroDiv` is Python's ZeroDivisionError (`1/(2*m)` with `m = 0`),
`index` is the IndexError from `historico_custo[-1]` on an empty list,
`invalidState` is the ValueError raised by `prever` on an untrained model
(the spec's InvalidStateError; the spec's ShapeError is `shape`). -/
inductive Erro where
  | shape
  | zeroDiv
  | index
  | invalidState
  deriving DecidableEq, Repr

/-- numpy 1-D broadcasting for an elementwise binary operation: equal
lengths act pointwise, a length-1 array is stretched to the other length,
any other pair of lengths is a shape error. -/
def broadcastOp (f : ℚ → ℚ → ℚ) (a b : List ℚ) : Except Erro (List ℚ) :=
  if a.length = b.length then .ok (List.zipWith f a b)
  else if a.length = 1 then .ok (b.map (fun y => f a.headI y))
  else if b.length = 1 then .ok (a.map (fun x => f x b.headI))
  else .error .shape

/-- Function `np.mean`: sum divided by length (in `ℚ`, the empty list gives `0`;
numpy would give `nan`, a value no claim exercises). -/
def npMean (xs : List ℚ) : ℚ := xs.sum / xs.length

/-- Population variance, the quantity under the square root in `np.std`. -/
def npVar (xs : List ℚ) : ℚ := npMean (xs.map (fun x => (x - npMean xs) ^ 2))

/-- Model of the float square root used by `np.std`: exact on
perfect-square rationals, and in general `ratSqrt 0 = 0` while
`0 < ratSqrt q` whenever `0 < q` — the only facts about `np.std`'s value
that the code's branches (`if X_std != 0`) depend on. -/
def ratSqrt (q : ℚ) : ℚ :=
  if q < 0 then 0 else (Nat.sqrt q.num.natAbs : ℚ) / (Nat.sqrt q.den : ℚ)

/-- Function `np.std`: population standard deviation, `sqrt` of `npVar`. -/
def npStd (xs : List ℚ) : ℚ := ratSqrt (npVar xs)

/-- The de-normalized coefficients stored by `treinar`
(`self.coeficientes`, a dict with these four keys). -/
structure Coeficientes where
  intercepto : ℚ
  inclinacao : ℚ
  X_mean : ℚ
  X_std : ℚ
  deriving DecidableEq, Repr

/-- The mutable state of a `RegressaoLinearManual` instance: the three
hyperparameters fixed at construction, plus `coeficientes` (empty dict
`{}` at construction, modelled `none`) and `historico_custo`.
`max_iteracoes` is a Python `int`, so it may be non-positive. -/
structure RegressaoLinearManual where
  taxa_aprendizado : ℚ
  max_iteracoes : ℤ
  tolerancia : ℚ
  coeficientes : Option Coeficientes
  historico_custo : List ℚ
  deriving DecidableEq, Repr

/-- Constructor `__init__`: hyperparameters stored, empty coefficient dict, empty
cost history. -/
def RegressaoLinearManual.init (taxa_aprendizado : ℚ) (max_iteracoes : ℤ)
    (tolerancia : ℚ) : RegressaoLinearManual :=
  ⟨taxa_aprendizado, max_iteracoes, tolerancia, none, []⟩

/-- Method `calcular_custo`: `(1/(2*m)) * np.sum((y_previsto - y_real)**2)` with
`m = len(y_real)`; Python evaluates `1/(2*m)` first, so `m = 0` is a
ZeroDivisionError before the broadcast is attempted. The method never
reads `self`, so it is a standalone function here. -/
def calcular_custo (y_real y_previsto : List ℚ) : Except Erro ℚ :=
  let m := y_real.length
  if m = 0 then .error .zeroDiv
  else
    match broadcastOp (fun a b => a - b) y_previsto y_real with
    | .error e => .error e
    | .ok d => .ok ((1 / (2 * (m : ℚ))) * (d.map (fun t => t ^ 2)).sum)

/-- Method `calcular_gradientes`: `((1/m)*Σ(yp-y), (1/m)*Σ((yp-y)*X))` with
`m = len(y_real)`; again `self` is unread. -/
def calcular_gradientes (X y_real y_previsto : List ℚ) :
    Except Erro (ℚ × ℚ) :=
  let m := y_real.length
  if m = 0 then .error .zeroDiv
  else
    match broadcastOp (fun a b => a - b) y_previsto y_real with
    | .error e => .error e
    | .ok d =>
      match broadcastOp (fun a b => a * b) d X with
      | .error e => .error e
      | .ok dX => .ok ((1 / (m : ℚ)) * d.sum, (1 / (m : ℚ)) * dX.sum)

/-- The `for iteracao in range(self.max_iteracoes)` loop of `treinar`,
state-passing: current `intercepto`/`inclinacao` and the accumulated
`historico_custo` (appends already performed survive a later exception,
as they do on the Python object). Each iteration predicts, appends the
cost, computes gradients, forms the proposed update, and either stops —
*keeping the pre-update coefficients* — when both proposed deltas are
below `tolerancia`, or commits the update and continues. -/
def treinar_loop (lr tol : ℚ) (X_norm y : List ℚ) :
    Nat → ℚ → ℚ → List ℚ → Except Erro (ℚ × ℚ) × List ℚ
  | 0, b0, b1, hist => (.ok (b0, b1), hist)
  | n + 1, b0, b1, hist =>
    let y_previsto := X_norm.map (fun x => b0 + b1 * x)
    match calcular_custo y y_previsto with
    | .error e => (.error e, hist)
    | .ok custo_atual =>
      let hist1 := hist ++ [custo_atual]
      match calcular_gradientes X_norm y y_previsto with
      | .error e => (.error e, hist1)
      | .ok (g0, g1) =>
        let novo_intercepto := b0 - lr * g0
        let nova_inclinacao := b1 - lr * g1
        if |novo_intercepto - b0| < tol ∧ |nova_inclinacao - b1| < tol then
          (.ok (b0, b1), hist1)
        else
          treinar_loop lr tol X_norm y n novo_intercepto nova_inclinacao hist1

/-- Lines 82-88 of `treinar`: `X_norm = (X - X_mean) / X_std`, degrading
to mean-centering only (the divide step skipped) when `X_std == 0`. -/
def normalizar (X : List ℚ) : List ℚ :=
  if npStd X ≠ 0 then X.map (fun x => (x - npMean X) / npStd X)
  else X.map (fun x => x - npMean X)

/-- Lines 126-132 of `treinar`: de-normalization of the fitted
coefficients back to the original scale, plus the retained `X_mean`,
`X_std` (lines 134-140). -/
def ajustar_coeficientes (X : List ℚ) (b0 b1 : ℚ) : Coeficientes :=
  if npStd X ≠ 0 then
    ⟨b0 - (b1 * npMean X / npStd X), b1 / npStd X, npMean X, npStd X⟩
  else
    ⟨b0 - b1 * npMean X, b1, npMean X, npStd X⟩

/-- Method `treinar`: normalize `X` (`normalizar`), initialize both coefficients
to `draw * 0.01` (the draws `i0 s0` are the two `np.random.randn()`
values), run the gradient-descent loop (`range` of a non-positive
`max_iteracoes` is empty, hence `.toNat`), de-normalize and store the
coefficient dict, and finally print `historico_custo[-1]` — an
IndexError when the history is still empty. Returns the call's result
together with the post-call object state. -/
def treinar (m : RegressaoLinearManual) (i0 s0 : ℚ) (X y : List ℚ) :
    Except Erro Coeficientes × RegressaoLinearManual :=
  match treinar_loop m.taxa_aprendizado m.tolerancia (normalizar X) y
      m.max_iteracoes.toNat (i0 * (1 / 100)) (s0 * (1 / 100))
      m.historico_custo with
  | (.error e, hist) => (.error e, { m with historico_custo := hist })
  | (.ok (b0, b1), hist) =>
    (if hist = [] then .error .index else .ok (ajustar_coeficientes X b0 b1),
     { m with coeficientes := some (ajustar_coeficientes X b0 b1),
              historico_custo := hist })

/-- Method `prever`: raises on an untrained model (`if not self.coeficientes`),
otherwise elementwise `intercepto + inclinacao * x` on the raw input —
no re-normalization. The method assigns no attribute of `self`, so it
takes the state and returns only the predictions. -/
def prever (m : RegressaoLinearManual) (X : List ℚ) : Except Erro (List ℚ) :=
  match m.coeficientes with
  | none => .error .invalidState
  | some c => .ok (X.map (fun x => c.intercepto + c.inclinacao * x))

/-- Method `calcular_r_quadrado`: `1 - ss_res/ss_tot`, or exactly `1.0` when
`ss_tot == 0`. The method never reads `self` — in particular it performs
no trained-state check — so it is a standalone function here. -/
def calcular_r_quadrado (y_real y_previsto : List ℚ) : Except Erro ℚ :=
  match broadcastOp (fun a b => a - b) y_real y_previsto with
  | .error e => .error e
  | .ok d =>
    let ss_res := (d.map (fun t => t ^ 2)).sum
    let ss_tot := (y_real.map (fun t => (t - npMean y_real) ^ 2)).sum
    if ss_tot = 0 then .ok 1 else .ok (1 - ss_res / ss_tot)

/-- The metrics dict returned by `obter_metricas_modelo`. -/
structure Metricas where
  r_quadrado : ℚ
  erro_quadratico_medio : ℚ
  erro_absoluto_medio : ℚ
  raiz_erro_quadratico_medio : ℚ
  deriving DecidableEq, Repr

/-- Method `obter_metricas_modelo` (the spec's `evaluate`): predicts via
`prever` (hence fails on an untrained model), then aggregates R², MSE,
MAE and RMSE; reads state only through `prever`, mutates nothing. -/
def obter_metricas_modelo (m : RegressaoLinearManual) (X y_real : List ℚ) :
    Except Erro Metricas :=
  match prever m X with
  | .error e => .error e
  | .ok y_previsto =>
    match calcular_r_quadrado y_real y_previsto with
    | .error e => .error e
    | .ok r2 =>
      match broadcastOp (fun a b => a - b) y_real y_previsto with
      | .error e => .error e
      | .ok d =>
        let mse := npMean (d.map (fun t => t ^ 2))
        let mae := npMean (d.map (fun t => |t|))
        .ok ⟨r2, mse, mae, ratSqrt mse⟩

deriving instance DecidableEq for Except

/-! ### Helper lemmas -/

theorem broadcastOp_comprimentos_iguais (f : ℚ → ℚ → ℚ) (a b : List ℚ)
    (h : a.length = b.length) :
    broadcastOp f a b = .ok (List.zipWith f a b) := by
  simp [broadcastOp, h]

theorem broadcastOp_incompativel (f : ℚ → ℚ → ℚ) (a b : List ℚ)
    (h : a.length ≠ b.length) (ha : a.length ≠ 1) (hb : b.length ≠ 1) :
    broadcastOp f a b = .error .shape := by
  simp [broadcastOp, h, ha, hb]

theorem calcular_custo_ok (y yp : List ℚ) (hy : y ≠ [])
    (h : yp.length = y.length) :
    calcular_custo y yp =
      .ok ((1 / (2 * (y.length : ℚ))) *
        ((List.zipWith (fun a b => a - b) yp y).map (fun t => t ^ 2)).sum) := by
  have hm : y.length ≠ 0 := by simpa using List.length_pos.mpr hy |>.ne'
  simp [calcular_custo, hm, broadcastOp_comprimentos_iguais _ _ _ h]

theorem calcular_gradientes_ok (X y yp : List ℚ) (hy : y ≠ [])
    (h1 : yp.length = y.length) (h2 : y.length = X.length) :
    calcular_gradientes X y yp =
      .ok ((1 / (y.length : ℚ)) * (List.zipWith (fun a b => a - b) yp y).sum,
           (1 / (y.length : ℚ)) *
             (List.zipWith (fun a b => a * b)
               (List.zipWith (fun a b => a - b) yp y) X).sum) := by
  have hm : y.length ≠ 0 := by simpa using List.length_pos.mpr hy |>.ne'
  have hz : (List.zipWith (fun a b => a - b) yp y).length = X.length := by
    simp [List.length_zipWith, h1, h2]
  simp [calcular_gradientes, hm, broadcastOp_comprimentos_iguais _ _ _ h1,
    broadcastOp_comprimentos_iguais _ _ _ hz]

theorem treinar_loop_passo (lr tol : ℚ) (Xn y : List ℚ) (n : Nat) (b0 b1 : ℚ)
    (hist : List ℚ) (c g0 g1 : ℚ)
    (hc : calcular_custo y (Xn.map fun x => b0 + b1 * x) = .ok c)
    (hg : calcular_gradientes Xn y (Xn.map fun x => b0 + b1 * x) = .ok (g0, g1)) :
    treinar_loop lr tol Xn y (n + 1) b0 b1 hist =
      if |b0 - lr * g0 - b0| < tol ∧ |b1 - lr * g1 - b1| < tol then
        (.ok (b0, b1), hist ++ [c])
      else
        treinar_loop lr tol Xn y n (b0 - lr * g0) (b1 - lr * g1) (hist ++ [c]) := by
  simp only [treinar_loop, hc, hg]

theorem treinar_loop_historico (lr tol : ℚ) (Xn y : List ℚ) :
    ∀ (n : Nat) (b0 b1 : ℚ) (hist : List ℚ),
      treinar_loop lr tol Xn y n b0 b1 hist =
        ((treinar_loop lr tol Xn y n b0 b1 []).1,
          hist ++ (treinar_loop lr tol Xn y n b0 b1 []).2) := by
  intro n
  induction n with
  | zero => intro b0 b1 hist; simp [treinar_loop]
  | succ n ih =>
    intro b0 b1 hist
    simp only [treinar_loop]
    cases hc : calcular_custo y (Xn.map fun x => b0 + b1 * x) with
    | error e => simp
    | ok custo =>
      cases hg : calcular_gradientes Xn y (Xn.map fun x => b0 + b1 * x) with
      | error e => simp
      | ok g =>
        obtain ⟨g0, g1⟩ := g
        dsimp only
        split_ifs with hcond
        · simp
        · rw [ih _ _ (hist ++ [custo]), ih _ _ ([] ++ [custo])]
          simp

theorem treinar_loop_ok (lr tol : ℚ) (Xn y : List ℚ)
    (hlen : Xn.length = y.length) (hy : y ≠ []) :
    ∀ (n : Nat) (b0 b1 : ℚ) (hist : List ℚ),
      ∃ r hist2, treinar_loop lr tol Xn y n b0 b1 hist = (.ok r, hist ++ hist2) ∧
        (n ≠ 0 → hist2 ≠ []) := by
  intro n
  induction n with
  | zero => intro b0 b1 hist; exact ⟨(b0, b1), [], by simp [treinar_loop], by simp⟩
  | succ n ih =>
    intro b0 b1 hist
    have hyl : (Xn.map fun x => b0 + b1 * x).length = y.length := by simp [hlen]
    obtain ⟨c, hc⟩ : ∃ c, calcular_custo y (Xn.map fun x => b0 + b1 * x) = .ok c :=
      ⟨_, calcular_custo_ok y _ hy hyl⟩
    obtain ⟨g0, g1, hg⟩ :
        ∃ g0 g1, calcular_gradientes Xn y (Xn.map fun x => b0 + b1 * x) = .ok (g0, g1) :=
      ⟨_, _, calcular_gradientes_ok Xn y _ hy hyl hlen.symm⟩
    rw [treinar_loop_passo lr tol Xn y n b0 b1 hist c g0 g1 hc hg]
    split_ifs with hcond
    · exact ⟨(b0, b1), [c], rfl, fun _ => by simp⟩
    · obtain ⟨r, hist2, hres, -⟩ := ih (b0 - lr * g0) (b1 - lr * g1) (hist ++ [c])
      exact ⟨r, c :: hist2, by rw [hres]; simp, fun _ => by simp⟩

theorem normalizar_length (X : List ℚ) : (normalizar X).length = X.length := by
  unfold normalizar; split_ifs <;> simp

theorem calcular_custo_shape (y yp : List ℚ) (hy : y.length ≠ 0)
    (h1 : yp.length ≠ y.length) (h2 : yp.length ≠ 1) (h3 : y.length ≠ 1) :
    calcular_custo y yp = .error .shape := by
  simp [calcular_custo, hy, broadcastOp_incompativel _ _ _ h1 h2 h3]

theorem treinar_loop_erro_custo (lr tol : ℚ) (Xn y : List ℚ) (n : Nat)
    (b0 b1 : ℚ) (hist : List ℚ) (e : Erro)
    (hc : calcular_custo y (Xn.map fun x => b0 + b1 * x) = .error e) :
    treinar_loop lr tol Xn y (n + 1) b0 b1 hist = (.error e, hist) := by
  simp only [treinar_loop, hc]

theorem treinar_eq_ok (m : RegressaoLinearManual) (i0 s0 : ℚ) (X y : List ℚ)
    (b0 b1 : ℚ) (hist : List ℚ)
    (hloop : treinar_loop m.taxa_aprendizado m.tolerancia (normalizar X) y
        m.max_iteracoes.toNat (i0 * (1 / 100)) (s0 * (1 / 100)) m.historico_custo
      = (.ok (b0, b1), hist)) :
    treinar m i0 s0 X y =
      (if hist = [] then .error .index else .ok (ajustar_coeficientes X b0 b1),
       { m with coeficientes := some (ajustar_coeficientes X b0 b1),
                historico_custo := hist }) := by
  simp only [treinar, hloop]

theorem treinar_eq_erro (m : RegressaoLinearManual) (i0 s0 : ℚ) (X y : List ℚ)
    (e : Erro) (hist : List ℚ)
    (hloop : treinar_loop m.taxa_aprendizado m.tolerancia (normalizar X) y
        m.max_iteracoes.toNat (i0 * (1 / 100)) (s0 * (1 / 100)) m.historico_custo
      = (.error e, hist)) :
    treinar m i0 s0 X y = (.error e, { m with historico_custo := hist }) := by
  simp only [treinar, hloop]

/-! ### Claims -/

/-- Claim C6: for equal-length `y_real`, `y_previsto`, `calcular_r_quadrado`
returns exactly `1` when `ss_tot = Σ(y_real - mean y_real)² = 0` (all actual
values identical), regardless of `y_previsto`; otherwise it returns
`1 - ss_res/ss_tot` with `ss_res = Σ(y_real - y_previsto)²`, unclamped (the
witness below evaluates to a negative value). -/
theorem C6_r_quadrado (y_real y_previsto : List ℚ)
    (hlen : y_real.length = y_previsto.length) :
    calcular_r_quadrado y_real y_previsto =
      (if (y_real.map (fun t => (t - npMean y_real) ^ 2)).sum = 0 then .ok 1
       else .ok (1 -
         ((List.zipWith (fun a b => a - b) y_real y_previsto).map
             (fun t => t ^ 2)).sum /
           (y_real.map (fun t => (t - npMean y_real) ^ 2)).sum)) := by
  unfold calcular_r_quadrado
  rw [broadcastOp_comprimentos_iguais _ _ _ hlen]

/-- Witness for C6: a concrete equal-length pair with `ss_tot ≠ 0` whose R² is
negative (model worse than the mean-predictor, not clamped). -/
theorem C6_r_quadrado_witness :
    calcular_r_quadrado [0, 2] [10, 10] = .ok (-81) := by
  have h := C6_r_quadrado [0, 2] [10, 10] (by decide)
  refine h.trans ?_
  norm_num [npMean]

/-- Claim C7: on a trained model, `prever` is elementwise
`intercepto + inclinacao * x` on the raw input (no re-normalization), hence
prediction differences satisfy `prever x2 - prever x1 = inclinacao * (x2 - x1)`;
`prever` takes the state immutably and returns only the predictions (it assigns
no attribute of `self`), so repeated calls are identical by construction. -/
theorem C7_prever_afim (m : RegressaoLinearManual) (c : Coeficientes)
    (h : m.coeficientes = some c) (X : List ℚ) :
    prever m X = .ok (X.map (fun x => c.intercepto + c.inclinacao * x)) ∧
    ∀ x1 x2 : ℚ,
      (c.intercepto + c.inclinacao * x2) - (c.intercepto + c.inclinacao * x1) =
        c.inclinacao * (x2 - x1) := by
  exact ⟨by simp [prever, h], fun x1 x2 => by ring⟩

/-- Witness for C7: intercept 10, slope 2, `prever [5, 6] = [20, 22]`. -/
theorem C7_prever_afim_witness :
    prever ⟨1/100, 1000, 1/1000000, some ⟨10, 2, 0, 1⟩, [1]⟩ [5, 6] =
      .ok [20, 22] := by
  have h := C7_prever_afim ⟨1/100, 1000, 1/1000000, some ⟨10, 2, 0, 1⟩, [1]⟩
    ⟨10, 2, 0, 1⟩ rfl [5, 6]
  refine h.1.trans ?_
  norm_num

/-- Claim C8: on a freshly constructed model (empty coefficient dict, train
never invoked), `prever` fails fast with the untrained-model error
(`Erro.invalidState`, the ValueError of line 160) and returns no value. -/
theorem C8_prever_nao_treinado (lr : ℚ) (mi : ℤ) (tol : ℚ) (X : List ℚ) :
    prever (RegressaoLinearManual.init lr mi tol) X = .error .invalidState :=
  rfl

/-- Counterexample to C9 as stated: a freshly constructed, untrained instance
exists, yet `calcular_r_quadrado` — whose body never reads `self`, performing
no trained-state check — succeeds instead of failing with InvalidStateError. -/
theorem C9_contraexemplo :
    (RegressaoLinearManual.init (1/100) 1000 (1/1000000)).coeficientes = none ∧
    calcular_r_quadrado [1, 2] [3, 4] = .ok (-15) := by
  refine ⟨rfl, ?_⟩
  norm_num [calcular_r_quadrado, broadcastOp, npMean]

/-- Claim C9 amended: on a model never successfully trained, `evaluate`
(`obter_metricas_modelo`) fails fast with InvalidStateError (it predicts via
`prever`), but `r_squared` (`calcular_r_quadrado`) performs no trained-state
check: it is a pure function of its two sequences and succeeds on any
equal-length pair. -/
theorem C9_corrigida (m : RegressaoLinearManual) (h : m.coeficientes = none)
    (X y_real : List ℚ) :
    obter_metricas_modelo m X y_real = .error .invalidState ∧
    ∀ ya yp : List ℚ, ya.length = yp.length →
      ∃ r, calcular_r_quadrado ya yp = .ok r := by
  constructor
  · simp [obter_metricas_modelo, prever, h]
  · intro ya yp hl
    unfold calcular_r_quadrado
    rw [broadcastOp_comprimentos_iguais _ _ _ hl]
    dsimp only
    split_ifs <;> exact ⟨_, rfl⟩

/-- Witness for C9 (amended): the fresh instance makes `evaluate` fail and
`r_squared` succeed. -/
theorem C9_corrigida_witness :
    obter_metricas_modelo (RegressaoLinearManual.init (1/100) 1000 (1/1000000))
        [1] [1] = .error .invalidState ∧
    ∃ r, calcular_r_quadrado [1, 2] [3, 4] = .ok r := by
  have h := C9_corrigida (RegressaoLinearManual.init (1/100) 1000 (1/1000000))
    rfl [1] [1]
  exact ⟨h.1, h.2 [1, 2] [3, 4] (by decide)⟩

/-- Claim C10: a trained model stays trained: `treinar` only ever stores
coefficients (`some _`) or leaves them unchanged on an exception, never resets
them to the untrained state, and `prever`, `calcular_r_quadrado` and
`obter_metricas_modelo` take the state immutably (they assign no attribute of
`self`), so after training every `prever` call reaches the computation branch
and never fails with the untrained-model error. -/
theorem C10_treinado_permanece (m : RegressaoLinearManual) (c : Coeficientes)
    (h : m.coeficientes = some c) (i0 s0 : ℚ) (X y X2 : List ℚ) :
    ((treinar m i0 s0 X y).2.coeficientes).isSome = true ∧
    prever m X2 = .ok (X2.map (fun x => c.intercepto + c.inclinacao * x)) := by
  constructor
  · rcases hl : treinar_loop m.taxa_aprendizado m.tolerancia (normalizar X) y
        m.max_iteracoes.toNat (i0 * (1 / 100)) (s0 * (1 / 100))
        m.historico_custo with ⟨res, hist⟩
    cases res with
    | error e => simp only [treinar, hl]; simp [h]
    | ok p =>
      obtain ⟨b0, b1⟩ := p
      simp only [treinar, hl]
      simp
  · simp [prever, h]

/-- Witness for C10: a trained instance re-trained (even on a run that errors
or converges) keeps some coefficients, and `prever` still computes. -/
theorem C10_treinado_permanece_witness :
    ((treinar ⟨1/100, 1, 1/1000000, some ⟨10, 2, 0, 1⟩, [1]⟩ 0 0 [0, 2]
        [1, 1]).2.coeficientes).isSome = true ∧
    prever ⟨1/100, 1, 1/1000000, some ⟨10, 2, 0, 1⟩, [1]⟩ [3] = .ok [16] := by
  have h := C10_treinado_permanece ⟨1/100, 1, 1/1000000, some ⟨10, 2, 0, 1⟩, [1]⟩
    ⟨10, 2, 0, 1⟩ rfl 0 0 [0, 2] [1, 1] [3]
  refine ⟨h.1, h.2.trans ?_⟩
  norm_num

theorem ratSqrt_zero : ratSqrt 0 = 0 := by
  norm_num [ratSqrt, Rat.num_zero, Rat.den_zero]

theorem ratSqrt_one : ratSqrt 1 = 1 := by
  norm_num [ratSqrt, Rat.num_one, Rat.den_one]

theorem npMean_exemplo : npMean [0, 2] = 1 := by norm_num [npMean]

theorem npVar_exemplo : npVar [0, 2] = 1 := by norm_num [npVar, npMean]

theorem npStd_exemplo : npStd [0, 2] = 1 := by
  unfold npStd; rw [npVar_exemplo, ratSqrt_one]

theorem normalizar_exemplo : normalizar [0, 2] = [-1, 1] := by
  norm_num [normalizar, npStd_exemplo, npMean_exemplo]

/-- Claim C1: in an iteration of `treinar`, after the proposed update
`(novo_intercepto, nova_inclinacao)` is computed, if both
`|novo_intercepto - intercepto| < tolerancia` and
`|nova_inclinacao - inclinacao| < tolerancia`, the loop stops immediately: the
proposed values are discarded, the pre-update coefficients `(b0, b1)` of that
iteration are what the loop returns (and hence what `treinar` subsequently
de-normalizes and stores), and no cost entry beyond the one already appended
in this iteration is added, regardless of the `n` iterations of fuel left. -/
theorem C1_convergencia_descarta_atualizacao (lr tol : ℚ) (Xn y : List ℚ)
    (n : Nat) (b0 b1 : ℚ) (hist : List ℚ) (custo g0 g1 : ℚ)
    (hc : calcular_custo y (Xn.map fun x => b0 + b1 * x) = .ok custo)
    (hg : calcular_gradientes Xn y (Xn.map fun x => b0 + b1 * x) = .ok (g0, g1))
    (h0 : |b0 - lr * g0 - b0| < tol) (h1 : |b1 - lr * g1 - b1| < tol) :
    treinar_loop lr tol Xn y (n + 1) b0 b1 hist =
      (.ok (b0, b1), hist ++ [custo]) := by
  rw [treinar_loop_passo lr tol Xn y n b0 b1 hist custo g0 g1 hc hg]
  exact if_pos ⟨h0, h1⟩

/-- Witness for C1: with lr = tol = 1 on Xn = [0], y = [0] and zero initial
coefficients, the first proposed update is below tolerance, so the loop stops
at once with the pre-update pair (0, 0) and the single recorded cost 0,
leaving the remaining four iterations of fuel unused. -/
theorem C1_convergencia_descarta_atualizacao_witness :
    treinar_loop 1 1 [0] [0] 5 0 0 [] = (.ok (0, 0), [0]) := by
  have h := C1_convergencia_descarta_atualizacao 1 1 [0] [0] 4 0 0 [] 0 0 0
    (by norm_num [calcular_custo, broadcastOp])
    (by norm_num [calcular_gradientes, broadcastOp])
    (by norm_num [abs_lt]) (by norm_num [abs_lt])
  simpa using h

/-- Claim C2: whenever the gradient-descent loop of `treinar` completes with
coefficients `(b0, b1)` (hypothesis `hloop`; its statement also exhibits that
the iteration ran on `normalizar X`, which mean-centers without the divide
step when `npStd X = 0`), the model stores — and, when the run raises no
exception, returns — coefficients de-normalized back to the original scale by
exactly: slope `b1 / std` if `std ≠ 0` else `b1`; intercept
`b0 - b1 * mean / std` if `std ≠ 0` else `b0 - b1 * mean`. -/
theorem C2_desnormalizacao (m : RegressaoLinearManual) (i0 s0 : ℚ)
    (X y : List ℚ) (b0 b1 : ℚ) (hist : List ℚ)
    (hloop : treinar_loop m.taxa_aprendizado m.tolerancia (normalizar X) y
        m.max_iteracoes.toNat (i0 * (1 / 100)) (s0 * (1 / 100))
        m.historico_custo = (.ok (b0, b1), hist))
    (hne : hist ≠ []) :
    (treinar m i0 s0 X y).2.coeficientes = some
        ⟨if npStd X ≠ 0 then b0 - (b1 * npMean X / npStd X) else b0 - b1 * npMean X,
         if npStd X ≠ 0 then b1 / npStd X else b1, npMean X, npStd X⟩ ∧
    (treinar m i0 s0 X y).1 = .ok
        ⟨if npStd X ≠ 0 then b0 - (b1 * npMean X / npStd X) else b0 - b1 * npMean X,
         if npStd X ≠ 0 then b1 / npStd X else b1, npMean X, npStd X⟩ ∧
    (npStd X = 0 → normalizar X = X.map (fun x => x - npMean X)) := by
  have hadj : ajustar_coeficientes X b0 b1 =
      ⟨if npStd X ≠ 0 then b0 - (b1 * npMean X / npStd X) else b0 - b1 * npMean X,
       if npStd X ≠ 0 then b1 / npStd X else b1, npMean X, npStd X⟩ := by
    unfold ajustar_coeficientes
    split_ifs with hs <;> simp [hs]
  rw [treinar_eq_ok m i0 s0 X y b0 b1 hist hloop]
  exact ⟨by simp [hadj], by simp [hne, hadj],
    fun hs => by simp [normalizar, hs]⟩

/-- Witness for C2: training on X = [0, 2] (mean 1, std 1), y = [1, 1] with
zero draws and one iteration leaves the loop at (1/100, 0), de-normalized to
intercept 1/100 - 0*1/1 and slope 0/1. -/
theorem C2_desnormalizacao_witness :
    (treinar (RegressaoLinearManual.init (1/100) 1 (1/1000000)) 0 0 [0, 2]
        [1, 1]).2.coeficientes = some ⟨1/100, 0, 1, 1⟩ := by
  have hl : treinar_loop
      (RegressaoLinearManual.init (1/100) 1 (1/1000000)).taxa_aprendizado
      (RegressaoLinearManual.init (1/100) 1 (1/1000000)).tolerancia
      (normalizar [0, 2]) [1, 1]
      (RegressaoLinearManual.init (1/100) 1 (1/1000000)).max_iteracoes.toNat
      (0 * (1 / 100)) (0 * (1 / 100))
      (RegressaoLinearManual.init (1/100) 1 (1/1000000)).historico_custo
      = (.ok (1/100, 0), [1/2]) := by
    norm_num [RegressaoLinearManual.init, treinar_loop, calcular_custo,
      calcular_gradientes, broadcastOp, normalizar_exemplo, abs_lt]
  have h := C2_desnormalizacao (RegressaoLinearManual.init (1/100) 1 (1/1000000))
    0 0 [0, 2] [1, 1] (1/100) 0 [1/2] hl (by simp)
  refine h.1.trans ?_
  norm_num [npStd_exemplo, npMean_exemplo]

/-- Counterexample to C3 as stated: X = [5] and y = [1, 2] have different
lengths, yet `treinar` completes without any error — numpy broadcasting
stretches the length-1 prediction array across y — so mismatched lengths do
not always fail with a shape error. -/
theorem C3_contraexemplo :
    ([5] : List ℚ).length ≠ ([1, 2] : List ℚ).length ∧
    (treinar (RegressaoLinearManual.init (1/100) 1 (1/1000000)) 0 0 [5] [1, 2]).1
      = .ok ⟨3/200, 0, 5, 0⟩ := by
  refine ⟨by norm_num, ?_⟩
  norm_num [treinar, RegressaoLinearManual.init, treinar_loop, calcular_custo,
    calcular_gradientes, broadcastOp, normalizar, npStd, npVar, npMean,
    ratSqrt_zero, ajustar_coeficientes, abs_lt, List.headI, Int.toNat_one]

/-- Claim C3 amended: with at least one iteration to run, `treinar` on the
mismatched pair X = [0, 1, 2], y = [1, 2] (lengths 3 and 2, neither 1) fails
with the shape error from the numpy broadcast, while on any well-formed
equal-length non-empty input it raises no exception; a mismatched pair in
which one length is 1 is instead silently broadcast (see the counterexample). -/
theorem C3_corrigida (m : RegressaoLinearManual) (i0 s0 : ℚ)
    (hpos : 1 ≤ m.max_iteracoes) :
    (treinar m i0 s0 [0, 1, 2] [1, 2]).1 = .error .shape ∧
    ∀ X y : List ℚ, X.length = y.length → y ≠ [] →
      ∃ c, (treinar m i0 s0 X y).1 = .ok c := by
  obtain ⟨n, hn⟩ : ∃ n, m.max_iteracoes.toNat = n + 1 :=
    ⟨m.max_iteracoes.toNat - 1, by omega⟩
  constructor
  · have hc : calcular_custo [1, 2]
        ((normalizar [0, 1, 2]).map fun x => i0 * (1 / 100) + s0 * (1 / 100) * x)
        = .error .shape := by
      apply calcular_custo_shape <;> simp [normalizar_length]
    have hl := treinar_loop_erro_custo m.taxa_aprendizado m.tolerancia
      (normalizar [0, 1, 2]) [1, 2] n (i0 * (1 / 100)) (s0 * (1 / 100))
      m.historico_custo .shape hc
    rw [treinar_eq_erro m i0 s0 [0, 1, 2] [1, 2] .shape m.historico_custo
      (by rw [hn]; exact hl)]
  · intro X y hXy hy
    obtain ⟨r, hist2, hres, hne⟩ := treinar_loop_ok m.taxa_aprendizado
      m.tolerancia (normalizar X) y (by simp [normalizar_length, hXy]) hy
      m.max_iteracoes.toNat (i0 * (1 / 100)) (s0 * (1 / 100)) m.historico_custo
    obtain ⟨b0, b1⟩ := r
    refine ⟨ajustar_coeficientes X b0 b1, ?_⟩
    rw [treinar_eq_ok m i0 s0 X y b0 b1 _ hres]
    have h2 : hist2 ≠ [] := hne (by omega)
    have h3 : m.historico_custo ++ hist2 ≠ [] := fun hcontra =>
      h2 (List.append_eq_nil.mp hcontra).2
    simp [h3]

/-- Witness for C3 (amended): one model, one mismatched failing run and one
well-formed run that succeeds. -/
theorem C3_corrigida_witness :
    (treinar (RegressaoLinearManual.init (1/100) 1 (1/1000000)) 0 0 [0, 1, 2]
        [1, 2]).1 = .error .shape ∧
    ∃ c, (treinar (RegressaoLinearManual.init (1/100) 1 (1/1000000)) 0 0 [0, 2]
        [1, 1]).1 = .ok c := by
  have h := C3_corrigida (RegressaoLinearManual.init (1/100) 1 (1/1000000)) 0 0
    (by norm_num [RegressaoLinearManual.init])
  exact ⟨h.1, h.2 [0, 2] [1, 1] (by norm_num) (by simp)⟩

theorem treinar_exemplo :
    treinar (⟨1/100, 1, 1/1000000, none, []⟩ : RegressaoLinearManual) 0 0
        [0, 2] [1, 1]
      = (.ok ⟨1/100, 0, 1, 1⟩,
         ⟨1/100, 1, 1/1000000, some ⟨1/100, 0, 1, 1⟩, [1/2]⟩) := by
  norm_num [treinar, treinar_loop, calcular_custo, calcular_gradientes,
    broadcastOp, normalizar_exemplo, ajustar_coeficientes, npStd_exemplo,
    npMean_exemplo, abs_lt, Int.toNat_one]

theorem treinar_exemplo2 :
    treinar (⟨1/100, 1, 1/1000000, some ⟨1/100, 0, 1, 1⟩, [1/2]⟩ :
        RegressaoLinearManual) 0 0 [0, 2] [1, 1]
      = (.ok ⟨1/100, 0, 1, 1⟩,
         ⟨1/100, 1, 1/1000000, some ⟨1/100, 0, 1, 1⟩, [1/2, 1/2]⟩) := by
  norm_num [treinar, treinar_loop, calcular_custo, calcular_gradientes,
    broadcastOp, normalizar_exemplo, ajustar_coeficientes, npStd_exemplo,
    npMean_exemplo, abs_lt, Int.toNat_one]
  simp

/-- Counterexample to C4 as stated: calling `treinar` a second time on the
same instance leaves the cost history [1/2, 1/2] — the first run's entry is
still there — although the second run by itself produces the history [1/2].
The prior history is appended to, not overwritten. -/
theorem C4_contraexemplo :
    (treinar ((treinar (⟨1/100, 1, 1/1000000, none, []⟩ : RegressaoLinearManual)
        0 0 [0, 2] [1, 1]).2) 0 0 [0, 2] [1, 1]).2.historico_custo
      = [1/2, 1/2] ∧
    (treinar (⟨1/100, 1, 1/1000000, none, []⟩ : RegressaoLinearManual)
        0 0 [0, 2] [1, 1]).2.historico_custo = [1/2] := by
  constructor
  · rw [treinar_exemplo]
    show (treinar (⟨1/100, 1, 1/1000000, some ⟨1/100, 0, 1, 1⟩, [1/2]⟩ :
        RegressaoLinearManual) 0 0 [0, 2] [1, 1]).2.historico_custo = [1/2, 1/2]
    rw [treinar_exemplo2]
  · rw [treinar_exemplo]

/-- Claim C4 amended: a second `treinar` call fully overwrites the prior
coefficients — the stored coefficients equal those the same run produces on a
freshly constructed instance with the same hyperparameters and draws — but
the cost history is appended to, not overwritten: after the call it is the
prior history followed by the entries of the new run. -/
theorem C4_corrigida (m : RegressaoLinearManual) (i0 s0 : ℚ) (X y : List ℚ)
    (b0 b1 : ℚ) (hist2 : List ℚ)
    (hloop : treinar_loop m.taxa_aprendizado m.tolerancia (normalizar X) y
        m.max_iteracoes.toNat (i0 * (1 / 100)) (s0 * (1 / 100)) []
      = (.ok (b0, b1), hist2)) :
    (treinar m i0 s0 X y).2.coeficientes =
      (treinar { m with coeficientes := none, historico_custo := [] }
        i0 s0 X y).2.coeficientes ∧
    (treinar m i0 s0 X y).2.historico_custo =
      m.historico_custo ++
        (treinar { m with coeficientes := none, historico_custo := [] }
          i0 s0 X y).2.historico_custo := by
  have hl1 := treinar_loop_historico m.taxa_aprendizado m.tolerancia
    (normalizar X) y m.max_iteracoes.toNat (i0 * (1 / 100)) (s0 * (1 / 100))
    m.historico_custo
  rw [hloop] at hl1
  have h1 := treinar_eq_ok m i0 s0 X y b0 b1 (m.historico_custo ++ hist2) hl1
  have h2 := treinar_eq_ok
    { m with coeficientes := none, historico_custo := [] } i0 s0 X y b0 b1
    hist2 hloop
  rw [h1, h2]
  simp

/-- Witness for C4 (amended): an instance carrying stale coefficients and the
cost history [7] is re-trained; afterwards the history is [7, 1/2]. -/
theorem C4_corrigida_witness :
    (treinar (⟨1/100, 1, 1/1000000, some ⟨1, 1, 1, 1⟩, [7]⟩ :
        RegressaoLinearManual) 0 0 [0, 2] [1, 1]).2.historico_custo
      = [7, 1/2] := by
  have hl : treinar_loop
      (⟨1/100, 1, 1/1000000, some ⟨1, 1, 1, 1⟩, [7]⟩ :
        RegressaoLinearManual).taxa_aprendizado
      (⟨1/100, 1, 1/1000000, some ⟨1, 1, 1, 1⟩, [7]⟩ :
        RegressaoLinearManual).tolerancia
      (normalizar [0, 2]) [1, 1]
      (⟨1/100, 1, 1/1000000, some ⟨1, 1, 1, 1⟩, [7]⟩ :
        RegressaoLinearManual).max_iteracoes.toNat
      (0 * (1 / 100)) (0 * (1 / 100)) []
      = (.ok (1/100, 0), [1/2]) := by
    norm_num [treinar_loop, calcular_custo, calcular_gradientes, broadcastOp,
      normalizar_exemplo, abs_lt, Int.toNat_one]
  have h := C4_corrigida
    ⟨1/100, 1, 1/1000000, some ⟨1, 1, 1, 1⟩, [7]⟩ 0 0 [0, 2] [1, 1]
    (1/100) 0 [1/2] hl
  refine h.2.trans ?_
  show ([7] : List ℚ) ++ (treinar (⟨1/100, 1, 1/1000000, none, []⟩ :
      RegressaoLinearManual) 0 0 [0, 2] [1, 1]).2.historico_custo = [7, 1/2]
  rw [treinar_exemplo]
  rfl

/-- Counterexample to C5 as stated: a fresh model with `max_iteracoes = 0`
runs zero iterations, but `treinar` does store coefficients (the model is not
left untrained) and the call raises an IndexError reading
`historico_custo[-1]` from the still-empty history. -/
theorem C5_contraexemplo :
    (treinar (RegressaoLinearManual.init (1/100) 0 (1/1000000)) 0 0 [1] [1]).1
      = .error .index ∧
    (treinar (RegressaoLinearManual.init (1/100) 0 (1/1000000)) 0 0 [1]
        [1]).2.coeficientes ≠ none := by
  constructor
  · norm_num [treinar, RegressaoLinearManual.init, treinar_loop, Int.toNat_zero]
  · norm_num [treinar, RegressaoLinearManual.init, treinar_loop, Int.toNat_zero]
    exact fun hcontra => Option.noConfusion hcontra

/-- Claim C5 amended: a model with non-positive `max_iteracoes` and an empty
history (as freshly constructed) executes zero iterations and appends nothing
to the cost history, but it stores the de-normalized initial coefficients —
leaving the model trained, not untrained — and the call fails with an
IndexError when printing the final cost from the empty history. -/
theorem C5_corrigida (m : RegressaoLinearManual) (i0 s0 : ℚ) (X y : List ℚ)
    (hmax : m.max_iteracoes ≤ 0) (hfresh : m.historico_custo = []) :
    (treinar m i0 s0 X y).1 = .error .index ∧
    (treinar m i0 s0 X y).2.historico_custo = [] ∧
    (treinar m i0 s0 X y).2.coeficientes =
      some (ajustar_coeficientes X (i0 * (1 / 100)) (s0 * (1 / 100))) := by
  have h0 : m.max_iteracoes.toNat = 0 := by omega
  have hl : treinar_loop m.taxa_aprendizado m.tolerancia (normalizar X) y
      m.max_iteracoes.toNat (i0 * (1 / 100)) (s0 * (1 / 100)) m.historico_custo
      = (.ok (i0 * (1 / 100), s0 * (1 / 100)), []) := by
    rw [h0, hfresh]
    simp [treinar_loop]
  rw [treinar_eq_ok m i0 s0 X y _ _ [] hl]
  simp

/-- Witness for C5 (amended): `max_iteracoes = 0`, draws 2 and 3, X = [1]
(std 0): the call errors, the history stays empty, and the stored
coefficients are the de-normalized initial values. -/
theorem C5_corrigida_witness :
    (treinar (RegressaoLinearManual.init (1/100) 0 (1/1000000)) 2 3 [1] [1]).1
      = .error .index ∧
    (treinar (RegressaoLinearManual.init (1/100) 0 (1/1000000)) 2 3 [1]
        [1]).2.coeficientes = some ⟨-1/100, 3/100, 1, 0⟩ := by
  have h := C5_corrigida (RegressaoLinearManual.init (1/100) 0 (1/1000000)) 2 3
    [1] [1] (by norm_num [RegressaoLinearManual.init]) rfl
  refine ⟨h.1, h.2.2.trans ?_⟩
  norm_num [ajustar_coeficientes, npStd, npVar, npMean, ratSqrt_zero]
